import Mathlib

/-!
Shallow embedding of `src/application.cpp` (the appbase plugin host) and
proofs about it.

The embedding models:
  * paths (`boost::filesystem::path`) as an absolute flag plus a component list;
  * the application state (`plugins` name→plugin map, the `initialized_plugins`
    and `running_plugins` sequences, the resolved data directory);
  * the observable effects of a run as a trace of `Event`s
    (plugin initialize/startup/shutdown capability invocations, help printing);
  * the filesystem as a list of directories plus a path→contents map;
  * `application::startup`, `application::shutdown`,
    `application::initialize_impl`, `application::write_default_config`,
    `application::find_plugin`, `application::get_plugin`.

The plugin class template itself lives in `application.hpp`, which is not part
of the sources here; its lifecycle behaviour (state checks, appending to the
`initialized`/`started` sequences) is modelled from the spec where noted.
-/

namespace Appbase

/-- A plugin lifecycle state, as in the spec's state machine
`registered → initialized → started` (abstract_plugin::state,
declared in application.hpp). -/
inductive PluginState
  | registered
  | initialized
  | started
deriving DecidableEq, Repr

/-- A filesystem path, modelling `boost::filesystem::path`: an
absolute-or-relative flag plus the list of components. -/
structure Path where
  absolute : Bool
  components : List String
deriving DecidableEq, Repr

/-- boost `path::is_relative()`. -/
def Path.isRelative (p : Path) : Bool := !p.absolute

/-- boost `operator/`: appends the right operand's components
(boost appends unconditionally; the source only ever joins a relative
right operand). -/
def Path.join (a b : Path) : Path := ⟨a.absolute, a.components ++ b.components⟩

/-- boost `path::parent_path()`: the path without its last component. -/
def Path.parent (p : Path) : Path := ⟨p.absolute, p.components.dropLast⟩

/-- An observable effect of a run: a plugin lifecycle capability invocation,
or printing the merged option descriptions (the `--help` output, L84). -/
inductive Event
  | initializeCall (name : String)
  | startupCall (name : String)
  | shutdownCall (name : String)
  | printHelp
  | printVersion
deriving DecidableEq, Repr

/-- The application state: the `plugins` name→plugin map (std::map, here an
association list keyed by unique names; a plugin is represented by its
lifecycle state), the `initialized_plugins` and `running_plugins` sequences,
and `application_impl::_data_dir`. -/
structure AppState where
  plugins : List (String × PluginState)
  initialized_plugins : List String
  running_plugins : List String
  data_dir : Path
deriving DecidableEq, Repr

/-- Lookup in the name→plugin map (`plugins.find(name)`, L198). -/
def lookupState : List (String × PluginState) → String → Option PluginState
  | [], _ => none
  | e :: rest, n => if e.1 = n then some e.2 else lookupState rest n

/-- Overwrite the state of the plugin named `n` in the map (a plugin mutating
its own `_state` member). -/
def setState (m : List (String × PluginState)) (n : String) (st : PluginState) :
    List (String × PluginState) :=
  m.map (fun e => if e.1 = n then (e.1, st) else e)

/-- application::find_plugin (L196-203): map lookup, null when absent.
The C++ method is `const`: it reads and never modifies the registry, which the
embedding reflects by being a pure function of the state. -/
def find_plugin (s : AppState) (n : String) : Option PluginState :=
  lookupState s.plugins n

/-- application::get_plugin (L205-210): `find_plugin`, throwing
`std::runtime_error("unable to find plugin: " + name)` when it returns null. -/
def get_plugin (s : AppState) (n : String) : Except String PluginState :=
  match find_plugin s n with
  | none => .error ("unable to find plugin: " ++ n)
  | some p => .ok p

/-- Modelled from the spec: the plugin initialize capability
(plugin template in application.hpp, not in src/). Per spec §4.4, if the
plugin's state is beyond `registered` this is a no-op; otherwise it invokes
the initialize capability, transitions the plugin to `initialized`, and
appends it to the `initialized` sequence. Returns the new state and the
emitted events. -/
def plugin_initialize (s : AppState) (n : String) : AppState × List Event :=
  match find_plugin s n with
  | some .registered =>
      ({ s with plugins := setState s.plugins n .initialized,
                initialized_plugins := s.initialized_plugins ++ [n] },
       [.initializeCall n])
  | _ => (s, [])

/-- Modelled from the spec: the plugin startup capability
(plugin template in application.hpp, not in src/). Per spec §4.4, invoked on
an `initialized` plugin it calls the startup capability, transitions the
plugin to `started` and appends it to the `started` sequence; on a plugin in
any other state it is a no-op. -/
def plugin_startup (s : AppState) (n : String) : AppState × List Event :=
  match find_plugin s n with
  | some .initialized =>
      ({ s with plugins := setState s.plugins n .started,
                running_plugins := s.running_plugins ++ [n] },
       [.startupCall n])
  | _ => (s, [])

/-- One iteration of the loop in application::startup (L36-37). -/
def startup_step (acc : AppState × List Event) (n : String) : AppState × List Event :=
  let r := plugin_startup acc.1 n
  (r.1, acc.2 ++ r.2)

/-- application::startup (L35-38): `for (auto plugin : initialized_plugins)
plugin->startup();`. -/
def startup (s : AppState) : AppState × List Event :=
  s.initialized_plugins.foldl startup_step (s, [])

/-- application::shutdown (L131-143): invoke the shutdown capability on
`running_plugins` in reverse (L132-135), erase each from `plugins`
(L136-139; the erasures are discarded by `plugins.clear()` at L142), then
clear `running_plugins`, `initialized_plugins` and `plugins` (L140-142). -/
def shutdown (s : AppState) : AppState × List Event :=
  let evs := s.running_plugins.reverse.map Event.shutdownCall
  let _erased := s.running_plugins.reverse.foldl
    (fun m n => m.filter (fun e => e.1 ≠ n)) s.plugins
  (({ plugins := [],
      initialized_plugins := [],
      running_plugins := [],
      data_dir := s.data_dir } : AppState), evs)

/-- application::initialize_impl L97-102. Note the bug faithfully kept from
the source: the `auto config_file_name = ...` at L99 declares a NEW local
variable that shadows the outer one of L97, so the outer binding — the one
used at L104 and L108 — always stays `data_dir / "config.ini"`, and the
`--config` value is computed into the shadowing local and discarded. -/
def resolved_config_path (data_dir : Path) (config_opt : Option Path) : Path :=
  let config_file_name := data_dir.join ⟨false, ["config.ini"]⟩
  match config_opt with
  | some p =>
      let _inner := if p.isRelative then data_dir.join p else p
      config_file_name
  | none => config_file_name

/-- An option description in the merged schema
(boost::program_options::option_description, seen through the members the
source uses): its long name, human-readable description, whether the value
semantic stores a default (`semantic()->apply_default(store)` succeeding,
L177), and the `format_parameter()` string — empty for a switch taking no
argument, otherwise formatted `arg (=<default>)` per the comment at L185. -/
structure OptionDesc where
  long_name : String
  description : String
  has_default : Bool
  format_parameter : String
deriving DecidableEq, Repr

/-- The trimming at L186-187: `example.erase(0, 6)` drops the 6-character
prefix `arg (=`, `example.erase(example.length()-1)` drops the final `)`. -/
def strip_arg_format (e : String) : String := ⟨(e.data.drop 6).dropLast⟩

/-- The single `name = value` (or commented-out) line of one option's block in
write_default_config (L176-189): options whose semantic has no default get a
commented `# name = ` line (L177-178), boolean switches get `name = false`
(L181-183), and options with a formatted default get `name = <default>`
(L184-188). -/
def value_line (od : OptionDesc) : String :=
  if ¬ od.has_default then "# " ++ od.long_name ++ " = "
  else if od.format_parameter = "" then od.long_name ++ " = false"
  else od.long_name ++ " = " ++ strip_arg_format od.format_parameter

/-- The lines one option contributes to the default config file (the loop body
at L172-192): a `# <description>` comment when the description is nonempty
(L174-175), the value line, and the trailing blank line (L191). -/
def option_block (od : OptionDesc) : List String :=
  (if od.description = "" then [] else ["# " ++ od.description]) ++ [value_line od, ""]

/-- All lines of the generated default config file: the blocks of the config
schema's options, in schema order (the loop at L172). -/
def default_config_lines (schema : List OptionDesc) : List String :=
  (schema.map option_block).flatten

/-- The file contents as a single string: each `out_cfg << ... << "\n"` write
appends the line followed by a newline. -/
def default_config_text (schema : List OptionDesc) : String :=
  (default_config_lines schema).foldr (fun l r => l ++ "\n" ++ r) ""

/-- The filesystem, as far as the source touches it: the set of existing
directories and a path→contents file map. -/
structure FS where
  dirs : List Path
  files : List (Path × String)
deriving DecidableEq, Repr

/-- Contents of an existing file (association-list lookup). -/
def lookupFile : List (Path × String) → Path → Option String
  | [], _ => none
  | e :: rest, p => if e.1 = p then some e.2 else lookupFile rest p

/-- `bfs::exists` on a file path. -/
def FS.fileExists (fs : FS) (p : Path) : Bool := (lookupFile fs.files p).isSome

/-- Contents at a path, if a file exists there. -/
def FS.fileContents (fs : FS) (p : Path) : Option String := lookupFile fs.files p

/-- `bfs::exists` on a directory path. -/
def FS.dirExists (fs : FS) (p : Path) : Bool := fs.dirs.contains p

/-- `bfs::create_directories`: records the directory; succeeds (and changes
nothing) when it already exists. -/
def FS.createDirectories (fs : FS) (p : Path) : FS :=
  { fs with dirs := if fs.dirs.contains p then fs.dirs else fs.dirs ++ [p] }

/-- Opening an `std::ofstream` on a path and writing `c`: creates the file or
truncates an existing one, leaving contents `c`. -/
def FS.writeFile (fs : FS) (p : Path) (c : String) : FS :=
  { fs with files := fs.files.filter (fun e => e.1 ≠ p) ++ [(p, c)] }

/-- application::write_default_config (L167-194): create the parent
directories when absent (L168-169), then stream one block per option of the
config schema into the file (L171-193). -/
def write_default_config (fs : FS) (cfg_file : Path) (schema : List OptionDesc) : FS :=
  let fs1 := if ¬ fs.dirExists cfg_file.parent
             then fs.createDirectories cfg_file.parent else fs
  fs1.writeFile cfg_file (default_config_text schema)

/-- The guarded materialization at L104-106:
`if(!bfs::exists(config_file_name)) write_default_config(config_file_name);`. -/
def ensure_config_file (fs : FS) (cfg_file : Path) (schema : List OptionDesc) : FS :=
  if ¬ fs.fileExists cfg_file then write_default_config fs cfg_file schema else fs

/-- The built-in `plugin` config option (L63-64):
`bpo::value<vector<string>>()->composing()` declares no default value, so
`apply_default` fails; it takes an argument, so `format_parameter()` is
nonempty. -/
def plugin_opt : OptionDesc :=
  { long_name := "plugin",
    description := "Plugin(s) to enable, may be specified multiple times",
    has_default := false,
    format_parameter := "arg" }

/-- The application-level config schema added by set_program_options
(L61-64, L72): just the `plugin` option. -/
def app_cfg_schema : List OptionDesc := [plugin_opt]

/-- Modelled from the spec: the external option-parsing library's config-file
grammar, treated per spec §1 as "parse an INI-like file into key→value" with
`#`-prefixed comment lines permitted (spec §6). Takes the file's lines; a
blank or `#`-prefixed line yields no binding, a `key = value` line yields
one. -/
def parse_config_line (l : String) : Option (String × String) :=
  match l.data with
  | [] => none
  | '#' :: _ => none
  | _ =>
    match l.splitOn "=" with
    | [] => none
    | [_] => none
    | k :: rest => some (k.trim, (String.intercalate "=" rest).trim)

/-- Modelled from the spec: parsing a whole config file (as lines) into the
list of key→value bindings it contributes. -/
def parse_config_lines (ls : List String) : List (String × String) :=
  ls.filterMap parse_config_line

/-- The command-line inputs to application::initialize_impl, after the
external option-parsing library (out of scope per spec §1) has parsed
`argc/argv` into a key→value map: presence of `help` and `version`, the
`data-dir` and `config` values when present, the current working directory
(`bfs::current_path()`), the resolved values of the repeatable `plugin`
option after the config file has been merged in, and the caller-supplied
autostart plugin list (entries may be null). -/
structure InitArgs where
  help : Bool
  version : Bool
  data_dir_opt : Option Path
  config_opt : Option Path
  cwd : Path
  plugin_args : List String
  autostart : List (Option String)
deriving DecidableEq, Repr

/-- The data-directory resolution at L88-95: start from `"data-dir"`, and when
the option is present take its value, resolving a relative path against the
current working directory. -/
def resolved_data_dir (cwd : Path) (data_dir_opt : Option Path) : Path :=
  match data_dir_opt with
  | some d => if d.isRelative then cwd.join d else d
  | none => ⟨false, ["data-dir"]⟩

/-- `boost::split(names, arg, boost::is_any_of(" \t,"))` at L116-117. -/
def split_names (arg : String) : List String :=
  arg.split (fun c => c = ' ' ∨ c = '\t' ∨ c = ',')

/-- One `get_plugin(name).initialize(options)` call of L119: a missing name
throws out of initialize_impl; a present plugin runs its initialize
capability (modelled from the spec, see `plugin_initialize`). -/
def init_one_plugin (acc : AppState × List Event) (n : String) :
    Except String (AppState × List Event) :=
  match get_plugin acc.1 n with
  | .error e => .error e
  | .ok _ =>
      let r := plugin_initialize acc.1 n
      .ok (r.1, acc.2 ++ r.2)

/-- The `plugin`-option loop at L111-121: each argument is split on
space/tab/comma and every resulting name is resolved via get_plugin and
initialized. -/
def init_requested_plugins (s : AppState) (args : List String) :
    Except String (AppState × List Event) :=
  (args.flatMap split_names).foldlM init_one_plugin (s, [])

/-- One iteration of the autostart loop at L122-124: null entries are skipped,
and a plugin is initialized only when
`plugin->get_state() == abstract_plugin::registered`. -/
def autostart_step (acc : AppState × List Event) (p : Option String) :
    AppState × List Event :=
  match p with
  | none => acc
  | some n =>
      if find_plugin acc.1 n = some .registered then
        let r := plugin_initialize acc.1 n
        (r.1, acc.2 ++ r.2)
      else acc

/-- The autostart loop at L122-124 over the caller-supplied list. -/
def autostart_pass (s : AppState) (l : List (Option String)) : AppState × List Event :=
  l.foldl autostart_step (s, [])

/-- application::initialize_impl (L77-129). Returns the thrown exception
message, or the boolean result together with the final application state,
filesystem, and the trace of observable events. Steps, in source order:
the `help` early exit printing the merged options (L83-86); data-dir
resolution (L88-95, stored in `_data_dir`); config-path resolution with the
L99 shadowing kept (see `resolved_config_path`); materializing the default
config file when absent (L104-106); the config file parse itself is the
external library (L108-109, out of scope; its merged `plugin` values arrive
in `a.plugin_args`); the requested-plugin loop (L111-121); the autostart loop
(L122-124). Note there is no handling of the `version` option anywhere in
the function: the flag declared at L68 is parsed and then ignored. -/
def initialize_impl (s : AppState) (fs : FS) (a : InitArgs)
    (schema : List OptionDesc) : Except String (Bool × AppState × FS × List Event) :=
  if a.help then .ok (false, s, fs, [.printHelp])
  else
    let data_dir := resolved_data_dir a.cwd a.data_dir_opt
    let s1 := { s with data_dir := data_dir }
    let config_file_name := resolved_config_path data_dir a.config_opt
    let fs1 := ensure_config_file fs config_file_name schema
    match init_requested_plugins s1 a.plugin_args with
    | .error e => .error e
    | .ok (s2, evs) =>
        let r := autostart_pass s2 a.autostart
        .ok (true, r.1, fs1, evs ++ r.2)

/-! ### Helper lemmas -/

theorem lookupState_setState_ne (m : List (String × PluginState)) (n k : String)
    (st : PluginState) (h : k ≠ n) :
    lookupState (setState m n st) k = lookupState m k := by
  induction m with
  | nil => rfl
  | cons e rest ih =>
      by_cases he : e.1 = n
      · have hk : ¬ e.1 = k := by rw [he]; exact fun hnk => h hnk.symm
        simp only [setState, List.map_cons, if_pos he, lookupState]
        rw [if_neg hk, if_neg hk]
        exact ih
      · simp only [setState, List.map_cons, if_neg he, lookupState]
        by_cases hk : e.1 = k
        · rw [if_pos hk, if_pos hk]
        · rw [if_neg hk, if_neg hk]
          exact ih

theorem lookupFile_filter_append (l : List (Path × String)) (p : Path) (c : String) :
    lookupFile (l.filter (fun e => e.1 ≠ p) ++ [(p, c)]) p = some c := by
  induction l with
  | nil => simp [lookupFile]
  | cons e rest ih =>
      by_cases h : e.1 = p
      · simpa [List.filter_cons, h] using ih
      · simpa [List.filter_cons, h, lookupFile] using ih

/-! ### Claim theorems -/

/-- C2: calling shutdown() twice in a row is equivalent to calling it once —
the first call leaves the running/initialized sequences and the
name-to-plugin map empty, and the second call performs no plugin shutdown
calls and leaves the state unchanged. -/
theorem shutdown_twice_noop (s : AppState) :
    (shutdown s).1.running_plugins = [] ∧
    (shutdown s).1.initialized_plugins = [] ∧
    (shutdown s).1.plugins = [] ∧
    (shutdown (shutdown s).1).2 = [] ∧
    (shutdown (shutdown s).1).1 = (shutdown s).1 := by
  simp [shutdown]

/-- C3 (code bug, at a concrete failing input): with data directory `/d` and
`--config custom.ini` on the command line, initialize_impl materializes and
parses `/d/config.ini` — the `--config` value is computed into a local that
shadows the outer `config_file_name` (L99) and is discarded — instead of the
`/d/custom.ini` that the option's own description ("Configuration file name
relative to data-dir", L70) promises. -/
theorem config_option_shadowed :
    resolved_config_path ⟨true, ["d"]⟩ (some ⟨false, ["custom.ini"]⟩)
        = Path.join ⟨true, ["d"]⟩ ⟨false, ["config.ini"]⟩ ∧
    resolved_config_path ⟨true, ["d"]⟩ (some ⟨false, ["custom.ini"]⟩)
        ≠ Path.join ⟨true, ["d"]⟩ ⟨false, ["custom.ini"]⟩ := by decide

/-- The registry for the `--version` failing run: one registered plugin. -/
def version_state : AppState := ⟨[("p", .registered)], [], [], ⟨false, []⟩⟩

/-- The arguments of the `--version` failing run: `--version` present,
nothing else, plugin `p` in the autostart list. -/
def version_args : InitArgs :=
  { help := false, version := true, data_dir_opt := none, config_opt := none,
    cwd := ⟨true, []⟩, plugin_args := [], autostart := [some "p"] }

/-- C4 (code bug, at a concrete failing input): initialize_impl never
examines the `version` option — the flag declared at L68 with description
"Print version information." has no handler in L77-129. With `--version`
present the run prints nothing, materializes the default config file,
initializes the autostart plugin and returns true, so the event loop would
start; the claimed print-and-exit-before-lifecycle behaviour does not
happen. -/
theorem version_flag_ignored :
    version_args.version = true ∧
    initialize_impl version_state ⟨[], []⟩ version_args [] =
      .ok (true,
           ⟨[("p", .initialized)], ["p"], [], ⟨false, ["data-dir"]⟩⟩,
           ⟨[⟨false, ["data-dir"]⟩], [(⟨false, ["data-dir", "config.ini"]⟩, "")]⟩,
           [.initializeCall "p"]) := ⟨rfl, rfl⟩

/-- C5: with `--help` present, initialize_impl prints the merged option
descriptions and returns false immediately (L83-86): no config file is
written or parsed, no plugin initialize capability is invoked, and the
registry and filesystem are returned exactly as given. -/
theorem help_exits_before_effects (s : AppState) (fs : FS) (a : InitArgs)
    (schema : List OptionDesc) (h : a.help = true) :
    initialize_impl s fs a schema = .ok (false, s, fs, [.printHelp]) := by
  simp [initialize_impl, h]

/-- Witness for `help_exits_before_effects` at a concrete run. -/
theorem help_exits_before_effects_witness :
    initialize_impl ⟨[], [], [], ⟨false, []⟩⟩ ⟨[], []⟩
        ⟨true, false, none, none, ⟨true, []⟩, [], []⟩ []
      = .ok (false, ⟨[], [], [], ⟨false, []⟩⟩, ⟨[], []⟩, [.printHelp]) :=
  help_exits_before_effects _ _ _ _ rfl

/-- C9: in the autostart loop (L122-124), null entries are skipped without
error, a plugin is initialized exactly when its state is `registered`, and
autostart plugins already `initialized` or `started` are left untouched. -/
theorem autostart_skip_and_state_guard (s : AppState) (l : List (Option String))
    (n : String) :
    autostart_pass s (none :: l) = autostart_pass s l ∧
    (find_plugin s n = some .registered →
       autostart_pass s [some n] =
         ({ s with plugins := setState s.plugins n .initialized,
                   initialized_plugins := s.initialized_plugins ++ [n] },
          [Event.initializeCall n])) ∧
    (find_plugin s n = some .initialized → autostart_pass s [some n] = (s, [])) ∧
    (find_plugin s n = some .started → autostart_pass s [some n] = (s, [])) := by
  refine ⟨rfl, ?_, ?_, ?_⟩ <;> intro h <;>
    simp [autostart_pass, autostart_step, plugin_initialize, h]

/-- Witness for `autostart_skip_and_state_guard` at a concrete state. -/
theorem autostart_skip_and_state_guard_witness :
    autostart_pass ⟨[("a", .registered)], [], [], ⟨false, []⟩⟩ [some "a"]
      = (⟨[("a", .initialized)], ["a"], [], ⟨false, []⟩⟩,
         [Event.initializeCall "a"]) := by
  have h := (autostart_skip_and_state_guard
    ⟨[("a", .registered)], [], [], ⟨false, []⟩⟩ [] "a").2.1 (by decide)
  exact h

theorem startup_fold (l : List String) :
    ∀ (s : AppState) (evs : List Event),
      (∀ n ∈ l, lookupState s.plugins n = some .initialized) → l.Nodup →
      (l.foldl startup_step (s, evs)).2 = evs ++ l.map Event.startupCall ∧
      (l.foldl startup_step (s, evs)).1.running_plugins = s.running_plugins ++ l ∧
      (l.foldl startup_step (s, evs)).1.initialized_plugins = s.initialized_plugins := by
  induction l with
  | nil => intro s evs _ _; simp
  | cons n l ih =>
      intro s evs hst hnd
      have hn : lookupState s.plugins n = some .initialized :=
        hst n (List.mem_cons_self n l)
      have hstep : startup_step (s, evs) n =
          ({ s with plugins := setState s.plugins n .started,
                    running_plugins := s.running_plugins ++ [n] },
           evs ++ [.startupCall n]) := by
        simp [startup_step, plugin_startup, find_plugin, hn]
      rw [List.foldl_cons, hstep]
      have hst' : ∀ m ∈ l,
          lookupState (setState s.plugins n .started) m = some .initialized := by
        intro m hm
        have hne : m ≠ n := by
          rintro rfl
          exact (List.nodup_cons.mp hnd).1 hm
        rw [lookupState_setState_ne _ _ _ _ hne]
        exact hst m (List.mem_cons_of_mem _ hm)
      have hih := ih
        { s with plugins := setState s.plugins n .started,
                 running_plugins := s.running_plugins ++ [n] }
        (evs ++ [.startupCall n]) hst' (List.nodup_cons.mp hnd).2
      refine ⟨?_, ?_, ?_⟩
      · rw [hih.1]; simp
      · rw [hih.2.1]; simp
      · exact hih.2.2

/-- C1: startup() (L35-38) invokes the startup capability on the plugins in
exactly the order of the `initialized_plugins` sequence, the `started`
sequence afterwards equals that order, and shutdown() (L131-135) invokes the
shutdown capability on the started plugins in exactly the reverse of the
order they were started. Hypotheses are the spec's invariants before
startup: every plugin in the initialized sequence is in state `initialized`,
the sequence has no duplicates, and nothing has been started yet. -/
theorem startup_shutdown_order (s : AppState)
    (hst : ∀ n ∈ s.initialized_plugins, find_plugin s n = some .initialized)
    (hnd : s.initialized_plugins.Nodup)
    (hrun : s.running_plugins = []) :
    (startup s).2 = s.initialized_plugins.map Event.startupCall ∧
    (startup s).1.running_plugins = s.initialized_plugins ∧
    (shutdown (startup s).1).2
      = ((startup s).1.running_plugins).reverse.map Event.shutdownCall := by
  have h := startup_fold s.initialized_plugins s [] hst hnd
  refine ⟨?_, ?_, rfl⟩
  · rw [show (startup s).2 = (s.initialized_plugins.foldl startup_step (s, [])).2 from rfl,
        h.1]
    simp
  · rw [show (startup s).1 = (s.initialized_plugins.foldl startup_step (s, [])).1 from rfl,
        h.2.1, hrun]
    simp

/-- A concrete two-plugin state for the C1 witness, both plugins
initialized in the order a, b. -/
def demo_state : AppState :=
  ⟨[("a", .initialized), ("b", .initialized)], ["a", "b"], [], ⟨false, []⟩⟩

/-- Witness for `startup_shutdown_order` on a concrete two-plugin state. -/
theorem startup_shutdown_order_witness :
    (startup demo_state).2 = [Event.startupCall "a", Event.startupCall "b"] ∧
    (shutdown (startup demo_state).1).2
      = [Event.shutdownCall "b", Event.shutdownCall "a"] := by
  have h := startup_shutdown_order demo_state (by decide) (by decide) rfl
  constructor
  · rw [h.1]; rfl
  · rw [h.2.2, h.2.1]; rfl

theorem lookupFile_writeFile (x : FS) (p : Path) (c : String) :
    lookupFile (x.writeFile p c).files p = some c :=
  lookupFile_filter_append x.files p c

theorem fileExists_write_default_config (fs : FS) (p : Path)
    (schema : List OptionDesc) :
    (write_default_config fs p schema).fileExists p = true := by
  simp only [write_default_config, FS.fileExists]
  rw [lookupFile_writeFile]
  rfl

/-- C6: the default config file is written only when no file exists at the
resolved config path (the guard at L104-106); when a file already exists
there the materialization step returns the filesystem unchanged, so its
contents stay byte-for-byte identical, and running the materialization a
second time (after a first run that may have created the file) changes
nothing. -/
theorem ensure_config_file_idempotent (fs fs2 : FS) (p : Path)
    (schema : List OptionDesc) (c : String) (h : fs.fileContents p = some c) :
    ensure_config_file fs p schema = fs ∧
    (ensure_config_file fs p schema).fileContents p = some c ∧
    (fs2.fileExists p = false →
       (ensure_config_file fs2 p schema).fileContents p
         = some (default_config_text schema)) ∧
    ensure_config_file (ensure_config_file fs2 p schema) p schema
      = ensure_config_file fs2 p schema := by
  have hex : fs.fileExists p = true := by
    unfold FS.fileExists
    unfold FS.fileContents at h
    rw [h]
    rfl
  refine ⟨?_, ?_, ?_, ?_⟩
  · unfold ensure_config_file
    rw [hex]
    simp
  · unfold ensure_config_file
    rw [hex]
    simpa using h
  · intro habs
    unfold ensure_config_file
    rw [habs]
    simp only [Bool.false_eq_true, not_false_eq_true, if_true]
    simp only [FS.fileContents, write_default_config]
    exact lookupFile_writeFile _ _ _
  · by_cases h2 : fs2.fileExists p
    · have he : ensure_config_file fs2 p schema = fs2 := by
        unfold ensure_config_file
        rw [h2]
        simp
      rw [he]
      exact he
    · have hw : (ensure_config_file fs2 p schema).fileExists p = true := by
        unfold ensure_config_file
        rw [if_pos h2]
        exact fileExists_write_default_config fs2 p schema
      generalize hE : ensure_config_file fs2 p schema = E at hw ⊢
      unfold ensure_config_file
      rw [hw]
      simp

/-- A concrete filesystem for the C6 witness: the config file already exists
at `/d/config.ini` with contents `x`. -/
def demo_fs : FS :=
  ⟨[⟨true, ["d"]⟩], [(⟨true, ["d", "config.ini"]⟩, "x")]⟩

/-- Witness for `ensure_config_file_idempotent` on a concrete filesystem. -/
theorem ensure_config_file_idempotent_witness :
    ensure_config_file demo_fs ⟨true, ["d", "config.ini"]⟩ app_cfg_schema = demo_fs ∧
    (ensure_config_file demo_fs ⟨true, ["d", "config.ini"]⟩ app_cfg_schema).fileContents
        ⟨true, ["d", "config.ini"]⟩ = some "x" := by
  have h := ensure_config_file_idempotent demo_fs demo_fs
    ⟨true, ["d", "config.ini"]⟩ app_cfg_schema "x" (by decide)
  exact ⟨h.1, h.2.1⟩

theorem lookupState_of_mem (m : List (String × PluginState)) (n : String)
    (p : PluginState) (hnd : (m.map Prod.fst).Nodup) (hm : (n, p) ∈ m) :
    lookupState m n = some p := by
  induction m with
  | nil => cases hm
  | cons e rest ih =>
      rcases List.mem_cons.mp hm with he | hr
      · rw [← he]
        simp [lookupState]
      · by_cases hen : e.1 = n
        · exfalso
          have : n ∈ rest.map Prod.fst := List.mem_map_of_mem Prod.fst hr
          have hnot := (List.nodup_cons.mp hnd).1
          rw [hen] at hnot
          exact hnot this
        · simp only [lookupState, if_neg hen]
          exact ih (List.nodup_cons.mp hnd).2 hr

theorem lookupState_of_not_mem (m : List (String × PluginState)) (n : String)
    (hm : ∀ q, (n, q) ∉ m) : lookupState m n = none := by
  induction m with
  | nil => rfl
  | cons e rest ih =>
      by_cases hen : e.1 = n
      · exfalso
        apply hm e.2
        rw [← hen]
        exact List.mem_cons_self e rest
      · simp only [lookupState, if_neg hen]
        exact ih (fun q hq => hm q (List.mem_cons_of_mem _ hq))

/-- C8: find_plugin (L196-203) returns the registered plugin when one with
that name exists and null otherwise (it is a pure, `const` lookup — the
embedding is a function of the state that returns no modified state);
get_plugin (L205-210) returns the same plugin when present and throws
`unable to find plugin: <name>` when absent. The uniqueness hypothesis
reflects the std::map registry keying plugins by unique name. -/
theorem find_get_plugin_contract (s : AppState) (n : String) (p : PluginState)
    (hnd : (s.plugins.map Prod.fst).Nodup) :
    ((n, p) ∈ s.plugins →
       find_plugin s n = some p ∧ get_plugin s n = .ok p) ∧
    ((∀ q, (n, q) ∉ s.plugins) →
       find_plugin s n = none ∧
       get_plugin s n = .error ("unable to find plugin: " ++ n)) := by
  constructor
  · intro hm
    have hf : find_plugin s n = some p := lookupState_of_mem _ _ _ hnd hm
    exact ⟨hf, by simp [get_plugin, hf]⟩
  · intro hm
    have hf : find_plugin s n = none := lookupState_of_not_mem _ _ hm
    exact ⟨hf, by simp [get_plugin, hf]⟩

/-- Witness for `find_get_plugin_contract` on a concrete one-plugin
registry: lookup of the present name and of an absent name. -/
theorem find_get_plugin_contract_witness :
    find_plugin ⟨[("a", .registered)], [], [], ⟨false, []⟩⟩ "a"
        = some .registered ∧
    get_plugin ⟨[("a", .registered)], [], [], ⟨false, []⟩⟩ "b"
        = .error ("unable to find plugin: " ++ "b") := by
  have ha := (find_get_plugin_contract
    ⟨[("a", .registered)], [], [], ⟨false, []⟩⟩ "a" .registered (by decide)).1
    (by decide)
  have hb := (find_get_plugin_contract
    ⟨[("a", .registered)], [], [], ⟨false, []⟩⟩ "b" .registered (by decide)).2
    (by
      intro q hq
      simp only [List.mem_singleton, Prod.mk.injEq] at hq
      exact absurd hq.1 (by decide))
  exact ⟨ha.1, hb.2⟩

theorem strip_arg_format_default (d : String) :
    strip_arg_format ("arg (=" ++ d ++ ")") = d := by
  apply String.ext
  show ((("arg (=" ++ d) ++ ")").data.drop 6).dropLast = d.data
  rw [String.data_append, String.data_append]
  rw [show ("arg (=".data) = ['a', 'r', 'g', ' ', '(', '='] from rfl]
  rw [show (")".data) = [')'] from rfl]
  rw [show (6 : Nat) = (['a', 'r', 'g', ' ', '(', '='] : List Char).length from rfl]
  rw [List.append_assoc, List.drop_left]
  exact List.dropLast_concat

theorem parse_config_line_comment (x : String) :
    parse_config_line ("# " ++ x) = none := by
  have hd : ("# " ++ x).data = '#' :: ' ' :: x.data := by
    rw [String.data_append]
    rfl
  unfold parse_config_line
  rw [hd]
  rfl

theorem parse_config_line_blank : parse_config_line "" = none := rfl

/-- C7 counterexample: the claim's "for every option in the config schema ...
a `name = value` line" fails at the built-in `plugin` option (L64), which is
part of the application config schema, declares no default value, and whose
generated block carries a commented-out `# plugin = ` line — no line of its
block is an assignment, and parsing the block yields no binding at all. -/
theorem plugin_option_block_commented :
    plugin_opt ∈ app_cfg_schema ∧
    option_block plugin_opt
      = ["# Plugin(s) to enable, may be specified multiple times",
         "# plugin = ", ""] ∧
    parse_config_lines (option_block plugin_opt) = [] := by decide

/-- C7 (amended): write_default_config creates the parent directories
(changing nothing when they already exist), writes the file, and emits one
block per config-schema option: a `# <description>` comment line omitted
when the description is empty, then — when the option's semantic stores a
default — a `name = value` line with the default rendered as text, or
`name = false` for a boolean switch with no formatted default; an option
with no applicable default instead gets a commented `# name = ` line;
each block ends with a blank line. -/
theorem write_default_config_block_format (fs : FS) (cfg : Path)
    (schema : List OptionDesc) (od : OptionDesc) (d : String) (hmem : od ∈ schema) :
    (write_default_config fs cfg schema).fileContents cfg
        = some (default_config_text schema) ∧
    (write_default_config fs cfg schema).dirExists cfg.parent = true ∧
    (fs.dirExists cfg.parent = true →
       (write_default_config fs cfg schema).dirs = fs.dirs) ∧
    option_block od <:+: default_config_lines schema ∧
    (od.description ≠ "" →
       option_block od = ["# " ++ od.description, value_line od, ""]) ∧
    (od.description = "" → option_block od = [value_line od, ""]) ∧
    (od.has_default = true → od.format_parameter = "arg (=" ++ d ++ ")" →
       value_line od = od.long_name ++ " = " ++ d) ∧
    (od.has_default = true → od.format_parameter = "" →
       value_line od = od.long_name ++ " = false") ∧
    (od.has_default = false → value_line od = "# " ++ od.long_name ++ " = ") := by
  refine ⟨?_, ?_, ?_, ?_, ?_, ?_, ?_, ?_, ?_⟩
  · simp only [FS.fileContents, write_default_config]
    exact lookupFile_writeFile _ _ _
  · by_cases hdx : fs.dirExists cfg.parent
    · have hmemd : cfg.parent ∈ fs.dirs := by
        simpa [FS.dirExists] using hdx
      simp [write_default_config, FS.writeFile, FS.dirExists,
            FS.createDirectories, hmemd]
    · have hmemd : cfg.parent ∉ fs.dirs := by
        simpa [FS.dirExists] using hdx
      simp [write_default_config, FS.writeFile, FS.dirExists,
            FS.createDirectories, hmemd]
  · intro hd
    simp [write_default_config, FS.writeFile, hd]
  · have hb : option_block od ∈ schema.map option_block :=
      List.mem_map_of_mem option_block hmem
    exact List.infix_of_mem_flatten hb
  · intro h
    simp [option_block, h]
  · intro h
    simp [option_block, h]
  · intro h1 h2
    have hne : ("arg (=" ++ d ++ ")" : String) ≠ "" := by
      intro hc
      have hdc := congrArg String.data hc
      rw [String.data_append, String.data_append] at hdc
      rw [show ("arg (=".data) = ['a', 'r', 'g', ' ', '(', '='] from rfl] at hdc
      simp at hdc
    unfold value_line
    rw [h1, h2]
    simp [hne, strip_arg_format_default]
  · intro h1 h2
    unfold value_line
    rw [h1, h2]
    simp
  · intro h1
    unfold value_line
    rw [h1]
    simp

/-- A concrete option with a declared default for the C7 witness; its
`format_parameter()` renders the default `10`. -/
def demo_opt : OptionDesc :=
  { long_name := "rate", description := "Sample rate", has_default := true,
    format_parameter := "arg (=" ++ "10" ++ ")" }

/-- Witness for `write_default_config_block_format` at a concrete option and
filesystem. -/
theorem write_default_config_block_format_witness :
    value_line demo_opt = "rate" ++ " = " ++ "10" ∧
    (write_default_config ⟨[], []⟩ ⟨true, ["d", "config.ini"]⟩
        [demo_opt]).fileContents ⟨true, ["d", "config.ini"]⟩
      = some (default_config_text [demo_opt]) := by
  have h := write_default_config_block_format ⟨[], []⟩ ⟨true, ["d", "config.ini"]⟩
    [demo_opt] demo_opt "10" (List.mem_singleton.mpr rfl)
  exact ⟨h.2.2.2.2.2.2.1 rfl rfl, h.1⟩

/-- C10: a config-schema option with no applicable default value produces a
commented-out `# name = ` line in the generated default config file
(L176-178) rather than an active assignment; its whole block parses to no
binding, so the option remains unset on subsequent runs. -/
theorem no_default_option_commented (schema : List OptionDesc) (od : OptionDesc)
    (hmem : od ∈ schema) (h : od.has_default = false) :
    ("# " ++ (od.long_name ++ " = ")) ∈ default_config_lines schema ∧
    parse_config_lines (option_block od) = [] := by
  have hvl : value_line od = "# " ++ (od.long_name ++ " = ") := by
    unfold value_line
    rw [h]
    simp [String.append_assoc]
  constructor
  · have hb : ("# " ++ (od.long_name ++ " = ")) ∈ option_block od := by
      rw [← hvl]
      unfold option_block
      by_cases hd : od.description = "" <;> simp [hd]
    exact List.mem_flatten.mpr
      ⟨option_block od, List.mem_map_of_mem option_block hmem, hb⟩
  · unfold option_block parse_config_lines
    by_cases hd : od.description = "" <;>
      simp [hd, hvl, parse_config_line_comment, parse_config_line_blank]

/-- Witness for `no_default_option_commented` at the built-in `plugin`
option. -/
theorem no_default_option_commented_witness :
    ("# " ++ ("plugin" ++ " = ")) ∈ default_config_lines app_cfg_schema ∧
    parse_config_lines (option_block plugin_opt) = [] :=
  no_default_option_commented app_cfg_schema plugin_opt
    (List.mem_singleton.mpr rfl) rfl

end Appbase
